import Mathlib

/-!
Verification of `src/plugins/file_rename.py` (Auto-Rename-Bot).

The development shallowly embeds the module's pure logic: the ordered
season/episode and quality regex pattern lists together with a small
backtracking regex matcher reproducing Python `re.search` semantics
(leftmost match, alternation tried left to right, greedy repetition with
backtracking), the template placeholder resolver, the duration
reliability filter, the thumbnail processor, the cleanup utility, the
in-flight dedup table, and the pipeline orchestrator with its upload
retry loop.  Exceptions are modelled with `Except`; the filesystem as an
association list from path to file data; external collaborators
(transport, preference store, ffmpeg, PIL) as oracles supplied in a
script record.
-/

set_option maxRecDepth 10000

namespace AutoRename

instance {ε α : Type} [DecidableEq ε] [DecidableEq α] : DecidableEq (Except ε α) :=
  fun x y =>
    match x, y with
    | .ok a, .ok b =>
      if h : a = b then isTrue (by rw [h]) else isFalse (by simp [h])
    | .error e, .error f =>
      if h : e = f then isTrue (by rw [h]) else isFalse (by simp [h])
    | .ok _, .error _ => isFalse (by simp)
    | .error _, .ok _ => isFalse (by simp)

/-! ## A small backtracking regex matcher (Python `re.search` semantics)

Only the constructs appearing in `SEASON_EPISODE_PATTERNS` and
`QUALITY_PATTERNS` are supported: character classes, concatenation,
alternation, greedy star over a character class, capture groups, and the
word boundary `\b`.  `mmatch` returns the list of all ways to match a
prefix of the input, in Python's backtracking priority order; the head
of the list is the match Python commits to. -/

inductive RE where
  | eps
  | cls (p : Char → Bool)
  | cat (a b : RE)
  | alt (a b : RE)
  | starCls (p : Char → Bool)
  | grp (i : Nat) (a : RE)
  | bnd

/-- Matcher state: the previous character (for word boundaries), the
remaining input, and the captures recorded so far (most recent first). -/
structure MS where
  prev : Option Char
  rem : List Char
  caps : List (Nat × String)

def isWordChar : Option Char → Bool
  | some c => c.isAlphanum || c = '_'
  | none => false

/-- All ways a greedy star over class `p` can consume a prefix, longest
first (Python's backtracking order for `p*`). -/
def starRuns (p : Char → Bool) (prev : Option Char) (s : List Char) :
    List (Option Char × List Char) :=
  match s with
  | [] => [(prev, [])]
  | c :: rest =>
    if p c then starRuns p (some c) rest ++ [(prev, c :: rest)]
    else [(prev, c :: rest)]

def mmatch : RE → MS → List MS
  | .eps, st => [st]
  | .cls p, st =>
    match st.rem with
    | [] => []
    | c :: rest => if p c then [⟨some c, rest, st.caps⟩] else []
  | .cat a b, st => (mmatch a st).flatMap (fun st1 => mmatch b st1)
  | .alt a b, st => mmatch a st ++ mmatch b st
  | .starCls p, st =>
    (starRuns p st.prev st.rem).map (fun pr => ⟨pr.1, pr.2, st.caps⟩)
  | .grp i a, st =>
    (mmatch a st).map (fun st1 =>
      ⟨st1.prev, st1.rem,
        (i, String.mk (st.rem.take (st.rem.length - st1.rem.length))) :: st1.caps⟩)
  | .bnd, st =>
    if isWordChar st.prev ≠ isWordChar st.rem.head? then [st] else []

/-- `re.search`: try a match at each start position from the left; at the
first position where the pattern matches, commit to the
highest-priority match.  Returns the matched substring (group 0) and
the captures. -/
def searchLoop (re : RE) : Option Char → List Char → Option (String × List (Nat × String))
  | prev, s =>
    match mmatch re ⟨prev, s, []⟩ with
    | st :: _ => some (String.mk (s.take (s.length - st.rem.length)), st.caps)
    | [] =>
      match s with
      | [] => none
      | c :: rest => searchLoop re (some c) rest

def pySearch (re : RE) (text : String) : Option (String × List (Nat × String)) :=
  searchLoop re none text.data

/-- Number of capture groups a compiled pattern has (largest group index). -/
def reGroups : RE → Nat
  | .eps => 0
  | .cls _ => 0
  | .cat a b => max (reGroups a) (reGroups b)
  | .alt a b => max (reGroups a) (reGroups b)
  | .starCls _ => 0
  | .grp i a => max i (reGroups a)
  | .bnd => 0

def capLookup : List (Nat × String) → Nat → Option String
  | [], _ => none
  | (j, s) :: rest, i => if j = i then some s else capLookup rest i

/-- `match.group(i)`: raises `IndexError` when `i` exceeds the number of
groups in the pattern; returns `None` (here `none`) for a group that did
not participate in the match. -/
def pyGroup (ngroups : Nat) (caps : List (Nat × String)) (i : Nat) :
    Except String (Option String) :=
  if i ≤ ngroups then .ok (capLookup caps i) else .error "no such group"

/-! ## The compiled pattern tables -/

def isDigitC (c : Char) : Bool := c.isDigit

/-- Python `\s` (ASCII part). -/
def isWs (c : Char) : Bool :=
  c = ' ' || c = '\t' || c = '\n' || c = '\r' || c = Char.ofNat 11 || c = Char.ofNat 12

/-- A literal character, case-insensitively (all the patterns are
compiled with `re.IGNORECASE`). -/
def litc (c : Char) : RE := .cls (fun x => x.toLower = c)

def lit (s : String) : RE := s.data.foldr (fun c r => .cat (litc c) r) .eps

/-- `\d+` -/
def dplus : RE := .cat (.cls isDigitC) (.starCls isDigitC)

/-- `\s*` -/
def wsStar : RE := .starCls isWs

def ropt (r : RE) : RE := .alt r .eps

def cats (rs : List RE) : RE := rs.foldr .cat .eps

/-- `S(\d+)\s*(?:E|EP)\s*(\d+)` -/
def sePat1 : RE :=
  cats [litc 's', .grp 1 dplus, wsStar, .alt (litc 'e') (lit "ep"), wsStar, .grp 2 dplus]

/-- `S(\d+)[-_](?:E|EP)(\d+)` -/
def sePat2 : RE :=
  cats [litc 's', .grp 1 dplus, .cls (fun c => c = '-' || c = '_'),
    .alt (litc 'e') (lit "ep"), .grp 2 dplus]

/-- `Season\s*(\d+)\s*Episode\s*(\d+)` -/
def sePat3 : RE :=
  cats [lit "season", wsStar, .grp 1 dplus, wsStar, lit "episode", wsStar, .grp 2 dplus]

/-- `\[S(\d+)\s*(?:E|EP)?\s*(\d+)\]` -/
def sePat4 : RE :=
  cats [litc '[', litc 's', .grp 1 dplus, wsStar, ropt (.alt (litc 'e') (lit "ep")),
    wsStar, .grp 2 dplus, litc ']']

/-- `\[S(\d+)\]\[E(\d+)\]` -/
def sePat5 : RE :=
  cats [litc '[', litc 's', .grp 1 dplus, litc ']', litc '[', litc 'e',
    .grp 2 dplus, litc ']']

/-- `S(\d+)[^\d]*(\d+)` -/
def sePat6 : RE :=
  cats [litc 's', .grp 1 dplus, .starCls (fun c => !isDigitC c), .grp 2 dplus]

/-- `(?:E|EP|Episode)\s*(\d+)` — note: a single capture group. -/
def sePat7 : RE :=
  cats [.alt (litc 'e') (.alt (lit "ep") (lit "episode")), wsStar, .grp 1 dplus]

/-- `SEASON_EPISODE_PATTERNS`: each pattern paired with its
`(season_group, episode_group)` tag tuple, in source order. -/
def SEASON_EPISODE_PATTERNS : List (RE × Option String × Option String) :=
  [(sePat1, some "season", some "episode"),
   (sePat2, some "season", some "episode"),
   (sePat3, some "season", some "episode"),
   (sePat4, some "season", some "episode"),
   (sePat5, some "season", some "episode"),
   (sePat6, some "season", some "episode"),
   (sePat7, none, some "episode")]

def strLower (s : String) : String := String.mk (s.data.map Char.toLower)

/-- `\d{3,4}[pi]` -/
def qualRes : RE :=
  cats [.cls isDigitC, .cls isDigitC, .cls isDigitC, ropt (.cls isDigitC),
    .cls (fun c => c.toLower = 'p' || c.toLower = 'i')]

/-- `\[(\d{3,4}[pi])\]` -/
def qPat1 : RE := cats [litc '[', .grp 1 qualRes, litc ']']

/-- `\b(\d{3,4}[pi])\b` -/
def qPat2 : RE := cats [.bnd, .grp 1 qualRes, .bnd]

/-- `\[?(4k|2160p|uhd)\]?` -/
def qPat3 : RE :=
  cats [ropt (litc '['), .grp 1 (.alt (lit "4k") (.alt (lit "2160p") (lit "uhd"))),
    ropt (litc ']')]

/-- `\[?(2k|1440p|qhd)\]?` -/
def qPat4 : RE :=
  cats [ropt (litc '['), .grp 1 (.alt (lit "2k") (.alt (lit "1440p") (lit "qhd"))),
    ropt (litc ']')]

/-- `\[?(HDRip|HDTV|WebRip|WEBRip|BluRay|BRRip)\]?` -/
def qPat5 : RE :=
  cats [ropt (litc '['),
    .grp 1 (.alt (lit "hdrip") (.alt (lit "hdtv") (.alt (lit "webrip")
      (.alt (lit "webrip") (.alt (lit "bluray") (lit "brrip")))))),
    ropt (litc ']')]

/-- `\[?(4k|2k|1080p|720p|480p)?\s*[xX](264|265)\]?` -/
def qPat6 : RE :=
  cats [ropt (litc '['),
    ropt (.grp 1 (.alt (lit "4k") (.alt (lit "2k") (.alt (lit "1080p")
      (.alt (lit "720p") (lit "480p")))))),
    wsStar, .cls (fun c => c.toLower = 'x'), .grp 2 (.alt (lit "264") (lit "265")),
    ropt (litc ']')]

/-- A quality extractor: from the whole match (group 0) and the captures
to the normalized quality string. -/
def QUALITY_PATTERNS : List (RE × (String → List (Nat × String) → String)) :=
  [(qPat1, fun _ caps => strLower ((capLookup caps 1).getD "")),
   (qPat2, fun _ caps => strLower ((capLookup caps 1).getD "")),
   (qPat3, fun _ _ => "4k"),
   (qPat4, fun _ _ => "2k"),
   (qPat5, fun _ caps => strLower ((capLookup caps 1).getD "")),
   (qPat6, fun g0 _ => strLower g0)]

/-! ## `extract_season_episode` and `extract_quality` -/

/-- The per-match result computation of `extract_season_episode`:
`season = match.group(1) if season_group else None` and
`episode = match.group(2) if episode_group else match.group(1)`.
`match.group` can raise (`Except.error`). -/
def seResult (sg eg : Option String) (ngroups : Nat) (caps : List (Nat × String)) :
    Except String (Option String × Option String) := do
  let season ← if sg.isSome then pyGroup ngroups caps 1 else pure none
  let episode ← if eg.isSome then pyGroup ngroups caps 2 else pyGroup ngroups caps 1
  pure (season, episode)

/-- One pass of the `for pattern, (season_group, episode_group) in
SEASON_EPISODE_PATTERNS` loop over a single text: the first pattern that
matches determines the returned (possibly raising) result. -/
def scanSE (text : String) : Option (Except String (Option String × Option String)) :=
  SEASON_EPISODE_PATTERNS.findSome? (fun p =>
    (pySearch p.1 text).map (fun r => seResult p.2.1 p.2.2 (reGroups p.1) r.2))

/-- Python truthiness of an optional string (`if caption:`). -/
def pyTruthyStr : Option String → Bool
  | some s => !s.isEmpty
  | none => false

def extract_season_episode (caption : Option String) (filename : String) :
    Except String (Option String × Option String) :=
  if pyTruthyStr caption then
    match scanSE (caption.getD "") with
    | some r => r
    | none => (scanSE filename).getD (.ok (none, none))
  else
    (scanSE filename).getD (.ok (none, none))

/-- One pass of the quality loop over a single text. -/
def scanQuality (text : String) : Option String :=
  QUALITY_PATTERNS.findSome? (fun p =>
    (pySearch p.1 text).map (fun r => p.2 r.1 r.2))

def extract_quality (caption : Option String) (filename : String) : String :=
  if pyTruthyStr caption then
    match scanQuality (caption.getD "") with
    | some q => q
    | none => (scanQuality filename).getD "Unknown"
  else
    (scanQuality filename).getD "Unknown"

/-! Sanity checks of the matcher against CPython `re` behaviour. -/

example : extract_season_episode none "Show S02EP05 [1080p]" = .ok (some "02", some "05") := by
  decide

example : extract_quality none "Show S02EP05 [1080p]" = "1080p" := by decide

example : extract_season_episode none "One S01E02 Two" = .ok (some "01", some "02") := by
  decide

example : extract_season_episode none "[S3][E7]" = .ok (some "3", some "7") := by decide

example : extract_season_episode none "Season 2 Episode 11" = .ok (some "2", some "11") := by
  decide

example : extract_season_episode none "nothing here" = .ok (none, none) := by decide

/-! ## Template resolution

`for placeholder, value in replacements.items(): format_template =
format_template.replace(placeholder, value)` — the dict iterates in
insertion order.  `pyReplace` is Python `str.replace`: all
non-overlapping occurrences, scanning left to right (never called with
an empty pattern here). -/

def dropPre : List Char → List Char → Option (List Char)
  | s, [] => some s
  | [], _ :: _ => none
  | c :: s, p :: ps => if c = p then dropPre s ps else none

def replaceF (pat rep : List Char) : Nat → List Char → List Char
  | 0, s => s
  | fuel + 1, s =>
    match s with
    | [] => []
    | c :: rest =>
      match pat, dropPre s pat with
      | _ :: _, some suffix => rep ++ replaceF pat rep fuel suffix
      | _, _ => c :: replaceF pat rep fuel rest

def pyReplace (s pat rep : String) : String :=
  String.mk (replaceF pat.data rep.data s.data.length s.data)

/-- `season or 'XX'` — Python `or` on an optional string. -/
def pyOrStr (o : Option String) (d : String) : String :=
  if pyTruthyStr o then o.getD d else d

/-- The placeholder substitution applied to the user template
(`replacements` dict, in insertion order). -/
def resolveTemplate (t : String) (season episode : Option String) (quality : String) :
    String :=
  let replacements : List (String × String) :=
    [("{season}", pyOrStr season "XX"),
     ("{episode}", pyOrStr episode "XX"),
     ("{quality}", quality),
     ("Season", pyOrStr season "XX"),
     ("Episode", pyOrStr episode "XX"),
     ("QUALITY", quality)]
  replacements.foldl (fun acc pr => pyReplace acc pr.1 pr.2) t

example : resolveTemplate "{season}x{episode} - QUALITY" none (some "05") "4k" =
    "XXx05 - 4k" := by decide

/-! ## Extension defaulting

`ext = os.path.splitext(file_name)[1] or ('.mp4' if media_type ==
'video' else '.mp3')`.  `splitextExt` follows CPython
`posixpath.splitext`: the extension starts at the last dot, provided a
non-dot character precedes it within the basename (so dotfiles have no
extension). -/

def lastIdx (p : List Char) (c : Char) : Option Nat :=
  match p with
  | [] => none
  | x :: rest =>
    match lastIdx rest c with
    | some i => some (i + 1)
    | none => if x = c then some 0 else none

def splitextExt (name : String) : String :=
  let p := name.data
  match lastIdx p '.' with
  | none => ""
  | some di =>
    let si : Nat := match lastIdx p '/' with | some k => k + 1 | none => 0
    if si ≤ di ∧ ((p.drop si).take (di - si)).any (fun c => c ≠ '.') then
      String.mk (p.drop di)
    else ""

inductive MediaKind where
  | document | video | audio
  deriving DecidableEq

/-- The resolved extension for the new filename. -/
def resolvedExt (file_name : String) (media_type : MediaKind) : String :=
  let e := splitextExt file_name
  if e.isEmpty then (if media_type = .video then ".mp4" else ".mp3") else e

example : splitextExt "a.tar.gz" = ".gz" := by decide
example : splitextExt ".bashrc" = "" := by decide
example : resolvedExt "video" .video = ".mp4" := by decide
example : resolvedExt "README" .document = ".mp3" := by decide

/-! ## `get_reliable_duration`

The media's reported duration: present for video and audio messages
(pyrogram always carries an integer `duration`, possibly `0`), absent
for documents.  The truthiness tests of the source (`if duration and
duration < 60`, `if not duration or duration < 60`) are modelled with
Python semantics, where `0` is falsy. -/

def mediaDuration (media_type : MediaKind) (reported : Nat) : Option Nat :=
  match media_type with
  | .video => some reported
  | .audio => some reported
  | .document => none

def get_reliable_duration (media_type : MediaKind) (reported : Nat)
    (file_size : Nat) : Option Nat :=
  let duration := mediaDuration media_type reported
  let duration :=
    duration.bind (fun d =>
      if d ≠ 0 then (if d < 60 then none else some d) else some d)
  let duration :=
    if file_size > 10 * 1024 * 1024 then
      duration.bind (fun d =>
        if d = 0 then none else (if d < 60 then none else some d))
    else duration
  duration

example : get_reliable_duration .video 5 (50 * 1024 * 1024) = none := by decide
example : get_reliable_duration .video 120 (50 * 1024 * 1024) = some 120 := by decide
example : get_reliable_duration .document 0 1024 = none := by decide
example : get_reliable_duration .video 0 1024 = some 0 := by decide

/-! ## Filesystem model, `cleanup_files`, `process_thumbnail`

The filesystem is an association list from path to file data; `remErr`
is an oracle telling which paths `os.remove` would raise on. -/

inductive FData where
  | blob
  | jpeg (w h : Nat)
  deriving DecidableEq

abbrev Fs := List (String × FData)

def lookupF : Fs → String → Option FData
  | [], _ => none
  | (q, d) :: rest, p => if q = p then some d else lookupF rest p

def eraseF : Fs → String → Fs
  | [], _ => []
  | e :: rest, p => if e.1 = p then eraseF rest p else e :: eraseF rest p

def insertF (fs : Fs) (p : String) (d : FData) : Fs :=
  (p, d) :: eraseF fs p

/-- `os.remove`: raises when the oracle says so, else removes the path. -/
def osRemove (fs : Fs) (p : String) (remErr : String → Bool) : Except String Fs :=
  if remErr p then .error "remove failed" else .ok (eraseF fs p)

/-- `cleanup_files(*paths)`: for each path, if it is truthy and exists,
try to remove it; a raising removal is logged and swallowed and the
loop continues. -/
def cleanup_files (fs : Fs) (paths : List (Option String)) (remErr : String → Bool) :
    Fs :=
  match paths with
  | [] => fs
  | p :: rest =>
    let fs1 :=
      match p with
      | some q =>
        if !q.isEmpty && (lookupF fs q).isSome then
          match osRemove fs q remErr with
          | .ok fs2 => fs2
          | .error _ => fs
        else fs
      | none => fs
    cleanup_files fs1 rest remErr

/-- `process_thumbnail`: `decodeOk` models whether `Image.open` +
`convert`/`resize` succeed on the file at the path, `saveOk` whether
`img.save(path, "JPEG")` succeeds.  A failed save leaves a
partially-written blob behind, which the handler removes via
`cleanup_files`. -/
def process_thumbnail (fs : Fs) (thumb_path : Option String)
    (decodeOk saveOk remErr : String → Bool) : Fs × Option String :=
  match thumb_path with
  | none => (fs, none)
  | some p =>
    if p.isEmpty || (lookupF fs p).isNone then (fs, none)
    else
      if decodeOk p then
        if saveOk p then (insertF fs p (.jpeg 1280 720), some p)
        else (cleanup_files (insertF fs p .blob) [some p] remErr, none)
      else (cleanup_files fs [some p] remErr, none)

/-! ## User-visible events -/

inductive BodyEv where
  | reply (s : String)
  | edit (s : String)
  | sleep (n : Nat)
  | delMsg
  deriving DecidableEq

inductive Ev where
  | reply (s : String)
  | edit (s : String)
  | sleep (n : Nat)
  | delMsg
  | jobCleanup
  deriving DecidableEq

def BodyEv.toEv : BodyEv → Ev
  | .reply s => .reply s
  | .edit s => .edit s
  | .sleep n => .sleep n
  | .delMsg => .delMsg

/-! ## The upload retry loop (lines 335–381)

`while retry_count < max_retries:` — one `send_video` per iteration.
`script i` is the transport's behaviour on the attempt made with
`retry_count = i`.  The loop is written with an explicit fuel argument
(callers pass `fuel = max_retries - retry_count`, which bounds the
number of remaining iterations, each of which increments
`retry_count`); the `retry < maxR` guard is the loop condition. -/

inductive AttemptRes where
  | success
  | flood (w : Nat)
  | timeout
  | generic (msg : String)

inductive UploadOutcome where
  | uploaded
  | raisedTimeout
  | raisedGeneric (msg : String)
  | silentExit
  deriving DecidableEq

structure UploadOut where
  attempts : Nat
  events : List BodyEv
  outcome : UploadOutcome
  deriving DecidableEq

def uploadLoopF (script : Nat → AttemptRes) (maxR : Nat) : Nat → Nat → UploadOut
  | 0, _ => ⟨0, [], .silentExit⟩
  | fuel + 1, retry =>
    if retry < maxR then
      match script retry with
      | .success => ⟨1, [.delMsg], .uploaded⟩
      | .flood w =>
        let rest := uploadLoopF script maxR fuel (retry + 1)
        ⟨rest.attempts + 1,
          .edit ("**Rate limited. Waiting " ++ toString w ++ " seconds...**") ::
            .sleep w :: rest.events,
          rest.outcome⟩
      | .timeout =>
        if retry + 1 < maxR then
          let rest := uploadLoopF script maxR fuel (retry + 1)
          ⟨rest.attempts + 1,
            .edit ("**Upload timeout. Retrying (" ++ toString (retry + 1) ++ "/" ++
              toString maxR ++ ")...**") :: .sleep 5 :: rest.events,
            rest.outcome⟩
        else
          ⟨1, [.edit "**Upload failed after multiple retries. Please try again later.**"],
            .raisedTimeout⟩
      | .generic m =>
        if retry + 1 < maxR then
          let rest := uploadLoopF script maxR fuel (retry + 1)
          ⟨rest.attempts + 1,
            .edit ("**Upload error. Retrying (" ++ toString (retry + 1) ++ "/" ++
              toString maxR ++ ")...**") :: .sleep 3 :: rest.events,
            rest.outcome⟩
        else ⟨1, [.edit ("Upload failed: " ++ m)], .raisedGeneric m⟩
    else ⟨0, [], .silentExit⟩

/-- The source's loop: `max_retries = 3`, `retry_count = 0`. -/
def uploadLoop (script : Nat → AttemptRes) : UploadOut :=
  uploadLoopF script 3 3 0

/-! ## The dedup table (`renaming_operations`) -/

abbrev RenTable := List (String × Nat)

def lookupT : RenTable → String → Option Nat
  | [], _ => none
  | (q, t) :: rest, k => if q = k then some t else lookupT rest k

def eraseT : RenTable → String → RenTable
  | [], _ => []
  | e :: rest, k => if e.1 = k then eraseT rest k else e :: eraseT rest k

def insertT (tbl : RenTable) (k : String) (v : Nat) : RenTable :=
  (k, v) :: eraseT tbl k

/-- `(datetime.now() - renaming_operations[file_id]).seconds` — the
`seconds` field of a `timedelta` is the remainder modulo one day. -/
def tdSeconds (now earlier : Nat) : Nat := (now - earlier) % 86400

/-- The dedup gate (lines 245–249): a file id seen less than 10 seconds
ago is dropped silently (`return`, no message, no insert); otherwise the
id is (re)stamped with the current time and the job proceeds.  Returns
`(job created?, table afterwards)`. -/
def handleArrival (tbl : RenTable) (fid : String) (now : Nat) : Bool × RenTable :=
  match lookupT tbl fid with
  | some t =>
    if tdSeconds now t < 10 then (false, tbl) else (true, insertT tbl fid now)
  | none => (true, insertT tbl fid now)

/-! ## The pipeline orchestrator (`auto_rename_files`, lines 251–392)

The `try` body is `runJobBody`; `runJob` wraps it with the
`except`/`finally` of lines 383–392.  External behaviour is supplied by
a `JobScript` of oracles. -/

inductive DlRes where
  | ok
  | floodThen (w : Nat) (second : Except String Unit)
  | timeout
  | err (m : String)

structure JobScript where
  dl : DlRes
  dlPartial : Bool
  metaOk : Bool
  metaPartial : Bool
  storedCaption : Option String
  storedThumb : Option String
  videoHasThumbs : Bool
  thumbDl : Except String String
  decodeOk : String → Bool
  saveOk : String → Bool
  upload : Nat → AttemptRes
  remErr : String → Bool
  reportFails : Bool

structure BodyOut where
  fs : Fs
  dp : Option String
  mp : Option String
  tp : Option String
  events : List BodyEv
  err : Option String

def runJobBody (sc : JobScript) (format_template : String) (msgCaption : Option String)
    (file_name : String) (media_type : MediaKind) (fs : Fs) : BodyOut :=
  let caption := if pyTruthyStr msgCaption then msgCaption else none
  match extract_season_episode caption file_name with
  | .error e => ⟨fs, none, none, none, [], some e⟩
  | .ok (season, episode) =>
    let quality := extract_quality caption file_name
    let new_filename :=
      resolveTemplate format_template season episode quality ++
        resolvedExt file_name media_type
    let dp := "downloads/" ++ new_filename
    let mp := "metadata/" ++ new_filename
    let ev0 : List BodyEv := [.reply "**Downloading...**"]
    let dlStep : Fs × List BodyEv × Option String :=
      match sc.dl with
      | .ok => (insertF fs dp .blob, [], none)
      | .floodThen w second =>
        match second with
        | .ok _ => (insertF fs dp .blob, [.sleep w], none)
        | .error e =>
          ((if sc.dlPartial then insertF fs dp .blob else fs), [.sleep w], some e)
      | .timeout =>
        ((if sc.dlPartial then insertF fs dp .blob else fs),
          [.edit "**Download timeout. Please try again.**"], some "download timeout")
      | .err m =>
        ((if sc.dlPartial then insertF fs dp .blob else fs),
          [.edit ("Download failed: " ++ m)], some m)
    match dlStep with
    | (fs1, evD, some e) => ⟨fs1, some dp, some mp, none, ev0 ++ evD, some e⟩
    | (fs1, evD, none) =>
      let evM : List BodyEv := [.edit "**Processing metadata...**"]
      let fs2 :=
        if sc.metaOk then insertF fs1 mp .blob
        else (if sc.metaPartial then insertF fs1 mp .blob else fs1)
      let evP : List BodyEv := [.edit "**Preparing upload...**"]
      let thumbStep : Fs × Option String :=
        if sc.storedThumb.isSome then
          match sc.thumbDl with
          | .ok p => (insertF fs2 p .blob, some p)
          | .error _ => (fs2, none)
        else if (media_type == .video) && sc.videoHasThumbs then
          match sc.thumbDl with
          | .ok p => (insertF fs2 p .blob, some p)
          | .error _ => (fs2, none)
        else (fs2, none)
      let (fs4, tp) :=
        process_thumbnail thumbStep.1 thumbStep.2 sc.decodeOk sc.saveOk sc.remErr
      let evU : List BodyEv := [.edit "**Uploading...**"]
      let u := uploadLoop sc.upload
      let uerr : Option String :=
        match u.outcome with
        | .uploaded => none
        | .silentExit => none
        | .raisedTimeout => some "upload timeout"
        | .raisedGeneric m => some m
      ⟨fs4, some dp, some mp, tp, ev0 ++ evD ++ evM ++ evP ++ evU ++ u.events, uerr⟩

structure JobOut where
  fs : Fs
  tbl : RenTable
  events : List Ev
  caught : Option String

/-- The whole job: `try` body, `except Exception` (best-effort error
reply, itself swallowed when it fails), and the `finally` block
(`cleanup_files(download_path, metadata_path, thumb_path)` then
`renaming_operations.pop(file_id, None)`). -/
def runJob (sc : JobScript) (format_template : String) (msgCaption : Option String)
    (file_name : String) (media_type : MediaKind) (file_id : String)
    (fs : Fs) (tbl : RenTable) : JobOut :=
  let b := runJobBody sc format_template msgCaption file_name media_type fs
  let reportEvs : List Ev :=
    match b.err with
    | some e => if sc.reportFails then [] else [.reply ("Error: " ++ e)]
    | none => []
  let fsFinal := cleanup_files b.fs [b.dp, b.mp, b.tp] sc.remErr
  ⟨fsFinal, eraseT tbl file_id,
    b.events.map BodyEv.toEv ++ reportEvs ++ [.jobCleanup], b.err⟩

/-- How many times the job-level cleanup step appears in a trace. -/
def cleanupCount (l : List Ev) : Nat :=
  (l.filter (fun e => e == Ev.jobCleanup)).length

/-! ## Concrete inputs used by the witnesses -/

/-- A fully successful job script. -/
def scOk : JobScript where
  dl := .ok
  dlPartial := false
  metaOk := true
  metaPartial := false
  storedCaption := none
  storedThumb := some "tid"
  videoHasThumbs := false
  thumbDl := .ok "thumbs/t.jpg"
  decodeOk := fun _ => true
  saveOk := fun _ => true
  upload := fun _ => .success
  remErr := fun _ => false
  reportFails := false

def twoTimeoutsThenOk : Nat → AttemptRes :=
  fun i => if i < 2 then .timeout else .success

def oneFloodThenOk : Nat → AttemptRes :=
  fun i => if i = 0 then .flood 7 else .success

def oneGenericThenOk : Nat → AttemptRes :=
  fun i => if i = 0 then .generic "boom" else .success

/-! ## Lemmas about the association-list filesystem and dedup table -/

theorem lookupF_eraseF (fs : Fs) (p : String) : lookupF (eraseF fs p) p = none := by
  induction fs with
  | nil => rfl
  | cons e rest ih =>
    by_cases h : e.1 = p
    · simpa [eraseF, h] using ih
    · simp [eraseF, h, lookupF, ih]

theorem lookupF_eraseF_of_none (fs : Fs) (p q : String) (h : lookupF fs q = none) :
    lookupF (eraseF fs p) q = none := by
  induction fs with
  | nil => rfl
  | cons e rest ih =>
    obtain ⟨k, v⟩ := e
    by_cases h1 : k = q
    · simp [lookupF, h1] at h
    · have h2 : lookupF rest q = none := by simpa [lookupF, h1] using h
      by_cases h3 : k = p
      · simpa [eraseF, h3] using ih h2
      · simp [eraseF, h3, lookupF, h1, ih h2]

theorem lookupT_eraseT (tbl : RenTable) (k : String) : lookupT (eraseT tbl k) k = none := by
  induction tbl with
  | nil => rfl
  | cons e rest ih =>
    by_cases h : e.1 = k
    · simpa [eraseT, h] using ih
    · simp [eraseT, h, lookupT, ih]

theorem cleanup_files_of_none (paths : List (Option String)) (fs : Fs) (q : String)
    (rem : String → Bool) (h : lookupF fs q = none) :
    lookupF (cleanup_files fs paths rem) q = none := by
  induction paths generalizing fs with
  | nil => simpa [cleanup_files] using h
  | cons p rest ih =>
    cases p with
    | none => exact ih fs h
    | some r =>
      simp only [cleanup_files]
      by_cases hg : (!r.isEmpty && (lookupF fs r).isSome) = true
      · simp only [hg, if_true]
        by_cases hrem : rem r = true
        · simp only [osRemove, hrem, if_true]
          exact ih fs h
        · simp only [osRemove, hrem, Bool.false_eq_true, if_false]
          exact ih _ (lookupF_eraseF_of_none fs r q h)
      · simp only [hg, if_false]
        exact ih fs h

theorem cleanup_files_removes (paths : List (Option String)) (fs : Fs) (p : String)
    (rem : String → Bool) (hmem : some p ∈ paths) (hne : p ≠ "")
    (hrem : rem p = false) :
    lookupF (cleanup_files fs paths rem) p = none := by
  induction paths generalizing fs with
  | nil => cases hmem
  | cons q rest ih =>
    rcases List.mem_cons.mp hmem with heq | hmem2
    · cases heq
      simp only [cleanup_files]
      by_cases hex : (lookupF fs p).isSome = true
      · have hempty : p.isEmpty = false := by
          cases hIsEmpty : p.isEmpty
          · rfl
          · exact absurd ((String.isEmpty_iff p).mp hIsEmpty) hne
        simp only [hempty, hex, Bool.not_false, Bool.and_self, if_true, osRemove, hrem,
          Bool.false_eq_true, if_false]
        exact cleanup_files_of_none rest _ p rem (lookupF_eraseF fs p)
      · have hnone : lookupF fs p = none := by
          cases hx : lookupF fs p
          · rfl
          · simp [hx] at hex
        simp only [Bool.and_eq_true] at hex
        have : (!p.isEmpty && (lookupF fs p).isSome) = false := by
          simp [hnone]
        simp only [this, Bool.false_eq_true, if_false]
        exact cleanup_files_of_none rest fs p rem hnone
    · simp only [cleanup_files]
      exact ih _ hmem2

theorem cleanupCount_append (l m : List Ev) :
    cleanupCount (l ++ m) = cleanupCount l + cleanupCount m := by
  simp [cleanupCount, List.filter_append]

theorem toEv_ne_jobCleanup (e : BodyEv) : e.toEv ≠ Ev.jobCleanup := by
  cases e <;> simp [BodyEv.toEv]

theorem cleanupCount_map_toEv (l : List BodyEv) :
    cleanupCount (l.map BodyEv.toEv) = 0 := by
  induction l with
  | nil => rfl
  | cons e rest ih =>
    have h := toEv_ne_jobCleanup e
    simp only [List.map_cons, cleanupCount, List.filter_cons] at ih ⊢
    simp [h, ih]

/-! ## Lemmas about the upload loop -/

theorem uploadLoopF_attempts_le (script : Nat → AttemptRes) (maxR : Nat) :
    ∀ fuel retry, (uploadLoopF script maxR fuel retry).attempts ≤ fuel := by
  intro fuel
  induction fuel with
  | zero => intro retry; simp [uploadLoopF]
  | succ n ih =>
    intro retry
    simp only [uploadLoopF]
    by_cases h : retry < maxR
    · simp only [h, if_true]
      cases hs : script retry with
      | success => simp
      | flood w => simpa using Nat.succ_le_succ (ih (retry + 1))
      | timeout =>
        by_cases h2 : retry + 1 < maxR
        · simp only [h2, if_true]
          simpa using Nat.succ_le_succ (ih (retry + 1))
        · simp [h2]
      | generic m =>
        by_cases h2 : retry + 1 < maxR
        · simp only [h2, if_true]
          simpa using Nat.succ_le_succ (ih (retry + 1))
        · simp [h2]
    · simp [h]

/-! ## Small evaluation facts used in proofs -/

theorem scanSE_empty : scanSE "" = none := by decide

theorem scanQuality_empty : scanQuality "" = none := by decide

theorem pyTruthy_of_ne (c : String) (h : c ≠ "") : pyTruthyStr (some c) = true := by
  have : c.isEmpty = false := by
    cases hIsEmpty : c.isEmpty
    · rfl
    · exact absurd ((String.isEmpty_iff c).mp hIsEmpty) h
  simp [pyTruthyStr, this]

theorem pyTruthyStr_none : pyTruthyStr none = false := rfl

/-! ## The claims -/

/-- Claim C2: both extractors scan the caption first with the full
ordered rule list; when any rule matches the caption the function's
outcome is the caption's outcome — the filename is not consulted (the
result does not depend on the filename at all) — and a given text yields
the same result whether it is supplied as the caption or as the
filename. -/
theorem c2_caption_precedence :
    (∀ c f r, scanSE c = some r → extract_season_episode (some c) f = r) ∧
    (∀ c f q, scanQuality c = some q → extract_quality (some c) f = q) ∧
    (∀ t f r, scanSE t = some r →
      extract_season_episode (some t) f = extract_season_episode none t) ∧
    (∀ t f q, scanQuality t = some q →
      extract_quality (some t) f = extract_quality none t) := by
  refine ⟨fun c f r h => ?_, fun c f q h => ?_, fun t f r h => ?_, fun t f q h => ?_⟩
  · have hne : c ≠ "" := by
      intro he; subst he; rw [scanSE_empty] at h; cases h
    simp [extract_season_episode, pyTruthy_of_ne c hne, h]
  · have hne : c ≠ "" := by
      intro he; subst he; rw [scanQuality_empty] at h; cases h
    simp [extract_quality, pyTruthy_of_ne c hne, h]
  · have hne : t ≠ "" := by
      intro he; subst he; rw [scanSE_empty] at h; cases h
    simp [extract_season_episode, pyTruthy_of_ne t hne, h, pyTruthyStr_none]
  · have hne : t ≠ "" := by
      intro he; subst he; rw [scanQuality_empty] at h; cases h
    simp [extract_quality, pyTruthy_of_ne t hne, h, pyTruthyStr_none]

theorem c2_caption_precedence_witness :
    scanSE "S01E02" = some (.ok (some "01", some "02")) ∧
    extract_season_episode (some "S01E02") "S05E06.mkv" = .ok (some "01", some "02") ∧
    scanQuality "[720p]" = some "720p" ∧
    extract_quality (some "[720p]") "x.1080p.mkv" = "720p" ∧
    extract_season_episode (some "S01E02") "S05E06.mkv" =
      extract_season_episode none "S01E02" ∧
    extract_quality (some "[720p]") "x.1080p.mkv" = extract_quality none "[720p]" :=
  ⟨by decide,
   c2_caption_precedence.1 "S01E02" "S05E06.mkv" _ (by decide),
   by decide,
   c2_caption_precedence.2.1 "[720p]" "x.1080p.mkv" _ (by decide),
   c2_caption_precedence.2.2.1 "S01E02" "S05E06.mkv" (.ok (some "01", some "02"))
     (by decide),
   c2_caption_precedence.2.2.2 "[720p]" "x.1080p.mkv" "720p" (by decide)⟩

/-- Claim C4: an id present in the dedup table whose entry is younger
than 10 seconds causes the new arrival to be dropped silently with the
table unchanged; consequently two arrivals with the same id within 10
seconds of each other (with no eviction in between) create exactly one
job: the first proceeds, the second is dropped. -/
theorem c4_dedup_window :
    (∀ (tbl : RenTable) (fid : String) (now t : Nat), lookupT tbl fid = some t →
      tdSeconds now t < 10 → handleArrival tbl fid now = (false, tbl)) ∧
    (∀ (tbl : RenTable) (fid : String) (t1 t2 : Nat), lookupT tbl fid = none →
      t1 ≤ t2 → t2 - t1 < 10 →
      (handleArrival tbl fid t1).1 = true ∧
      handleArrival (handleArrival tbl fid t1).2 fid t2 =
        (false, (handleArrival tbl fid t1).2)) := by
  constructor
  · intro tbl fid now t h hlt
    simp [handleArrival, h, hlt]
  · intro tbl fid t1 t2 h hle hwin
    have h1 : handleArrival tbl fid t1 = (true, insertT tbl fid t1) := by
      simp [handleArrival, h]
    have h2 : lookupT (insertT tbl fid t1) fid = some t1 := by
      simp [insertT, lookupT]
    have h3 : tdSeconds t2 t1 < 10 := by
      have : (t2 - t1) % 86400 = t2 - t1 :=
        Nat.mod_eq_of_lt (lt_of_lt_of_le hwin (by norm_num))
      simpa [tdSeconds, this] using hwin
    refine ⟨by simp [h1], ?_⟩
    rw [h1]
    simp [handleArrival, h2, h3]

theorem c4_dedup_window_witness :
    (handleArrival [] "fid" 100).1 = true ∧
    handleArrival (handleArrival [] "fid" 100).2 "fid" 105 =
      (false, (handleArrival [] "fid" 100).2) ∧
    handleArrival [("fid", 100)] "fid" 105 = (false, [("fid", 100)]) :=
  ⟨(c4_dedup_window.2 [] "fid" 100 105 (by decide) (by decide) (by decide)).1,
   (c4_dedup_window.2 [] "fid" 100 105 (by decide) (by decide) (by decide)).2,
   c4_dedup_window.1 [("fid", 100)] "fid" 105 100 (by decide) (by decide)⟩

/-- Claim C5 (code bug): on a text where only the episode-only rule
`(?:E|EP|Episode)\s*(\d+)` matches, the loop's tag tuple is
`(None, 'episode')`, so the code evaluates `match.group(2)` — but that
pattern has a single capture group, so `group(2)` raises `IndexError`
instead of returning `(absent, episode)`. -/
theorem c5_episode_only_raises :
    extract_season_episode none "Episode 05.mkv" = .error "no such group" ∧
    extract_season_episode (some "EP9") "x.mkv" = .error "no such group" := by
  constructor
  · decide
  · decide

/-- Claim C6 (counterexample): on the dotted filename the claim's
expected season/episode values are not produced — rule 3 `Season\s*
(\d+)\s*Episode\s*(\d+)` requires whitespace (or nothing) between the
words and the numbers, and `.` is not whitespace. -/
theorem c6_dotted_filename_counterexample :
    extract_season_episode none "Show.Season.1.Episode.3.720p.mkv" ≠
      .ok (some "1", some "3") := by
  decide

/-- Claim C6 (amended): with caption absent and filename
"Show.Season.1.Episode.3.720p.mkv" no season/episode rule matches, so
extraction returns both fields absent; quality extraction still finds
"720p". -/
theorem c6_dotted_filename_amended :
    extract_season_episode none "Show.Season.1.Episode.3.720p.mkv" = .ok (none, none) ∧
    extract_quality none "Show.Season.1.Episode.3.720p.mkv" = "720p" := by
  constructor
  · decide
  · decide

/-- Claim C7: template resolution is the insertion-ordered sequence of
`str.replace` calls over the six tokens, substituting the extracted
season/episode (or the "XX" fallback) and the quality; the spec's
example template resolves to "XXx05 - 4k", a template with no matches
passes through unchanged apart from the tokens, and every occurrence of
a token is replaced. -/
theorem c7_template_resolution :
    (∀ t s e q, resolveTemplate t s e q =
      pyReplace (pyReplace (pyReplace (pyReplace (pyReplace (pyReplace t
        "{season}" (pyOrStr s "XX")) "{episode}" (pyOrStr e "XX")) "{quality}" q)
        "Season" (pyOrStr s "XX")) "Episode" (pyOrStr e "XX")) "QUALITY" q) ∧
    resolveTemplate "{season}x{episode} - QUALITY" none (some "05") "4k" =
      "XXx05 - 4k" ∧
    resolveTemplate "{season}.{episode}" none none "Unknown" = "XX.XX" ∧
    resolveTemplate "{episode}+{episode}" none (some "05") "4k" = "05+05" ∧
    resolveTemplate "Episode {episode}" none (some "05") "4k" = "05 05" ∧
    resolveTemplate "plain text.mkv" none none "Unknown" = "plain text.mkv" :=
  ⟨fun t s e q => rfl, by decide, by decide, by decide, by decide, by decide⟩

/-- Claim C9 (code bug): a reported duration of exactly 0 on a file of
at most 10 MiB is returned unchanged — `if duration and duration < 60`
skips the sub-60 rejection because `0` is falsy — although the
function's own docstring promises `None` for any duration under 60
seconds. -/
theorem c9_zero_duration_returned :
    get_reliable_duration .video 0 1024 = some 0 ∧
    get_reliable_duration .video 1 1024 = none ∧
    get_reliable_duration .video 0 (50 * 1024 * 1024) = none := by
  refine ⟨by decide, by decide, by decide⟩

/-- Claim C10: when the original name has no extension, the resolved
extension defaults to ".mp4" exactly for videos and ".mp3" for every
other media kind (documents included). -/
theorem c10_default_extension (file_name : String) (media_type : MediaKind)
    (h : splitextExt file_name = "") :
    resolvedExt file_name media_type =
      (if media_type = .video then ".mp4" else ".mp3") := by
  simp [resolvedExt, h, String.isEmpty_iff]

theorem isEmpty_false_of_ne (p : String) (h : p ≠ "") : p.isEmpty = false := by
  cases hIsEmpty : p.isEmpty
  · rfl
  · exact absurd ((String.isEmpty_iff p).mp hIsEmpty) h

/-- Claim C8: the thumbnail preparer returns absent without raising for
an absent path or a missing file; when normalization fails (decode or
save), the artifact is deleted and absent is returned, without aborting
the pipeline; on success the input path is overwritten with a 1280×720
JPEG. -/
theorem c8_thumbnail_behavior (fs : Fs) (decodeOk saveOk remErr : String → Bool) :
    process_thumbnail fs none decodeOk saveOk remErr = (fs, none) ∧
    (∀ p, lookupF fs p = none →
      process_thumbnail fs (some p) decodeOk saveOk remErr = (fs, none)) ∧
    (∀ p d, lookupF fs p = some d → p ≠ "" → decodeOk p = false → remErr p = false →
      (process_thumbnail fs (some p) decodeOk saveOk remErr).2 = none ∧
      lookupF (process_thumbnail fs (some p) decodeOk saveOk remErr).1 p = none) ∧
    (∀ p d, lookupF fs p = some d → p ≠ "" → decodeOk p = true → saveOk p = false →
      remErr p = false →
      (process_thumbnail fs (some p) decodeOk saveOk remErr).2 = none ∧
      lookupF (process_thumbnail fs (some p) decodeOk saveOk remErr).1 p = none) ∧
    (∀ p d, lookupF fs p = some d → p ≠ "" → decodeOk p = true → saveOk p = true →
      process_thumbnail fs (some p) decodeOk saveOk remErr =
        (insertF fs p (.jpeg 1280 720), some p)) := by
  refine ⟨rfl, fun p hp => ?_, fun p d hp hne hdec hrem => ?_,
    fun p d hp hne hdec hsave hrem => ?_, fun p d hp hne hdec hsave => ?_⟩
  · simp [process_thumbnail, hp]
  · have hE := isEmpty_false_of_ne p hne
    refine ⟨by simp [process_thumbnail, hp, hE, hdec], ?_⟩
    simp only [process_thumbnail, hp, hE, hdec, Option.isNone_none, Option.isNone_some,
      Bool.or_self, Bool.false_eq_true, if_false, if_true]
    exact cleanup_files_removes [some p] fs p remErr (by simp) hne hrem
  · have hE := isEmpty_false_of_ne p hne
    refine ⟨by simp [process_thumbnail, hp, hE, hdec, hsave], ?_⟩
    simp only [process_thumbnail, hp, hE, hdec, hsave, Option.isNone_none,
      Option.isNone_some, Bool.or_self, Bool.false_eq_true, if_false, if_true]
    exact cleanup_files_removes [some p] _ p remErr (by simp) hne hrem
  · have hE := isEmpty_false_of_ne p hne
    simp [process_thumbnail, hp, hE, hdec, hsave]

theorem c8_thumbnail_behavior_witness :
    process_thumbnail [("a.jpg", FData.blob)] none (fun _ => true) (fun _ => true)
      (fun _ => false) = ([("a.jpg", FData.blob)], none) ∧
    lookupF (process_thumbnail [("a.jpg", FData.blob)] (some "a.jpg") (fun _ => false)
      (fun _ => true) (fun _ => false)).1 "a.jpg" = none ∧
    lookupF (process_thumbnail [("a.jpg", FData.blob)] (some "a.jpg") (fun _ => true)
      (fun _ => false) (fun _ => false)).1 "a.jpg" = none ∧
    process_thumbnail [("a.jpg", FData.blob)] (some "a.jpg") (fun _ => true)
      (fun _ => true) (fun _ => false) = ([("a.jpg", FData.jpeg 1280 720)], some "a.jpg") :=
  ⟨(c8_thumbnail_behavior [("a.jpg", FData.blob)] (fun _ => true) (fun _ => true)
      (fun _ => false)).1,
   ((c8_thumbnail_behavior [("a.jpg", FData.blob)] (fun _ => false) (fun _ => true)
      (fun _ => false)).2.2.1 "a.jpg" .blob (by decide) (by decide) (by decide)
      (by decide)).2,
   ((c8_thumbnail_behavior [("a.jpg", FData.blob)] (fun _ => true) (fun _ => false)
      (fun _ => false)).2.2.2.1 "a.jpg" .blob (by decide) (by decide) (by decide)
      (by decide) (by decide)).2,
   by
     simpa using (c8_thumbnail_behavior [("a.jpg", FData.blob)] (fun _ => true)
       (fun _ => true) (fun _ => false)).2.2.2.2 "a.jpg" .blob (by decide) (by decide)
       (by decide) (by decide)⟩

/-- Claim C3 (counterexample): a job whose three upload attempts all hit
a rate-limit signal ends with the loop condition false: no upload, no
exception, and no failure message — the claim's "exhausting the 3
attempts is fatal and reported to the user in every failure mode
(including when the final attempt fails with a rate-limit signal)" is
false for the rate-limit mode, whose exhaustion is silent. -/
theorem c3_flood_final_counterexample :
    uploadLoop (fun _ => .flood 4) =
      ⟨3, [.edit "**Rate limited. Waiting 4 seconds...**", .sleep 4,
           .edit "**Rate limited. Waiting 4 seconds...**", .sleep 4,
           .edit "**Rate limited. Waiting 4 seconds...**", .sleep 4], .silentExit⟩ := by
  decide

/-- Claim C3 (amended): the upload stage makes at most 3 attempts; a
rate-limit signal sleeps for the signaled duration and increments the
counter; a timeout backs off 5 seconds and a generic error 3 seconds
before retrying; two timeouts then a success end as uploaded after
exactly 3 attempts; exhaustion by timeout or generic error is fatal and
reported — but exhaustion by a rate-limit signal on the final attempt
exits the loop silently, with no upload, no exception and no report. -/
theorem c3_upload_retry_amended :
    (∀ script, (uploadLoop script).attempts ≤ 3) ∧
    uploadLoop twoTimeoutsThenOk =
      ⟨3, [.edit "**Upload timeout. Retrying (1/3)...**", .sleep 5,
           .edit "**Upload timeout. Retrying (2/3)...**", .sleep 5, .delMsg],
        .uploaded⟩ ∧
    uploadLoop oneFloodThenOk =
      ⟨2, [.edit "**Rate limited. Waiting 7 seconds...**", .sleep 7, .delMsg],
        .uploaded⟩ ∧
    uploadLoop oneGenericThenOk =
      ⟨2, [.edit "**Upload error. Retrying (1/3)...**", .sleep 3, .delMsg], .uploaded⟩ ∧
    uploadLoop (fun _ => .timeout) =
      ⟨3, [.edit "**Upload timeout. Retrying (1/3)...**", .sleep 5,
           .edit "**Upload timeout. Retrying (2/3)...**", .sleep 5,
           .edit "**Upload failed after multiple retries. Please try again later.**"],
        .raisedTimeout⟩ ∧
    uploadLoop (fun _ => .generic "boom") =
      ⟨3, [.edit "**Upload error. Retrying (1/3)...**", .sleep 3,
           .edit "**Upload error. Retrying (2/3)...**", .sleep 3,
           .edit "Upload failed: boom"], .raisedGeneric "boom"⟩ ∧
    (uploadLoop (fun _ => .flood 2)).outcome = .silentExit ∧
    (uploadLoop (fun _ => .flood 2)).attempts = 3 :=
  ⟨fun script => uploadLoopF_attempts_le script 3 3 0, by decide, by decide, by decide,
   by decide, by decide, by decide, by decide⟩

theorem cleanupCount_reply (s : String) : cleanupCount [Ev.reply s] = 0 := rfl

theorem cleanupCount_single : cleanupCount [Ev.jobCleanup] = 1 := rfl

/-- Claim C1: whatever the job script does — upload success, any stage
failure, or an exception escaping the body — the finally-block cleanup
runs exactly once: it removes each of the download, metadata and
thumbnail artifacts (whenever the path was set and its own removal does
not raise; individual removal errors are swallowed), and evicts the
dedup entry for the file id.  The wrapper is total: no input makes it
raise. -/
theorem c1_cleanup_exactly_once (sc : JobScript) (tmpl : String) (cap : Option String)
    (fname : String) (kind : MediaKind) (fid : String) (fs : Fs) (tbl : RenTable) :
    cleanupCount (runJob sc tmpl cap fname kind fid fs tbl).events = 1 ∧
    (∀ p, some p ∈ [(runJobBody sc tmpl cap fname kind fs).dp,
        (runJobBody sc tmpl cap fname kind fs).mp,
        (runJobBody sc tmpl cap fname kind fs).tp] → p ≠ "" → sc.remErr p = false →
      lookupF (runJob sc tmpl cap fname kind fid fs tbl).fs p = none) ∧
    lookupT (runJob sc tmpl cap fname kind fid fs tbl).tbl fid = none := by
  refine ⟨?_, ?_, ?_⟩
  · cases hb : (runJobBody sc tmpl cap fname kind fs).err with
    | none =>
      rw [show (runJob sc tmpl cap fname kind fid fs tbl).events =
        (runJobBody sc tmpl cap fname kind fs).events.map BodyEv.toEv ++ [] ++
          [Ev.jobCleanup] by simp [runJob, hb]]
      rw [cleanupCount_append, cleanupCount_append, cleanupCount_map_toEv,
        cleanupCount_single]
      rfl
    | some e =>
      cases hr : sc.reportFails with
      | true =>
        rw [show (runJob sc tmpl cap fname kind fid fs tbl).events =
          (runJobBody sc tmpl cap fname kind fs).events.map BodyEv.toEv ++ [] ++
            [Ev.jobCleanup] by simp [runJob, hb, hr]]
        rw [cleanupCount_append, cleanupCount_append, cleanupCount_map_toEv,
          cleanupCount_single]
        rfl
      | false =>
        rw [show (runJob sc tmpl cap fname kind fid fs tbl).events =
          (runJobBody sc tmpl cap fname kind fs).events.map BodyEv.toEv ++
            [Ev.reply ("Error: " ++ e)] ++ [Ev.jobCleanup] by simp [runJob, hb, hr]]
        rw [cleanupCount_append, cleanupCount_append, cleanupCount_map_toEv,
          cleanupCount_reply, cleanupCount_single]
  · intro p hmem hne hrem
    exact cleanup_files_removes _ _ _ _ hmem hne hrem
  · exact lookupT_eraseT tbl fid

theorem c1_cleanup_exactly_once_witness :
    (runJobBody scOk "{season}x{episode}" none "Show S01E02.mkv" .video []).dp =
      some "downloads/01x02.mkv" ∧
    cleanupCount (runJob scOk "{season}x{episode}" none "Show S01E02.mkv" .video "f1"
      [] [("f1", 5)]).events = 1 ∧
    lookupF (runJob scOk "{season}x{episode}" none "Show S01E02.mkv" .video "f1"
      [] [("f1", 5)]).fs "downloads/01x02.mkv" = none ∧
    lookupT (runJob scOk "{season}x{episode}" none "Show S01E02.mkv" .video "f1"
      [] [("f1", 5)]).tbl "f1" = none :=
  ⟨by decide,
   (c1_cleanup_exactly_once scOk "{season}x{episode}" none "Show S01E02.mkv" .video
     "f1" [] [("f1", 5)]).1,
   (c1_cleanup_exactly_once scOk "{season}x{episode}" none "Show S01E02.mkv" .video
     "f1" [] [("f1", 5)]).2.1 "downloads/01x02.mkv" (by decide) (by decide) (by decide),
   (c1_cleanup_exactly_once scOk "{season}x{episode}" none "Show S01E02.mkv" .video
     "f1" [] [("f1", 5)]).2.2⟩

theorem c10_default_extension_witness :
    splitextExt "README" = "" ∧
    resolvedExt "README" .document = ".mp3" ∧
    resolvedExt "video" .video = ".mp4" ∧
    resolvedExt "song" .audio = ".mp3" :=
  ⟨by decide,
   by simpa using c10_default_extension "README" .document (by decide),
   by simpa using c10_default_extension "video" .video (by decide),
   by simpa using c10_default_extension "song" .audio (by decide)⟩

end AutoRename
